import Mathlib

/-!
Shallow embedding of the core subsystem of the iot-manager repository:
the capability-based device model (`src/iot_manager/devices/base.py` and the
concrete adapters `wiz.py`, `tuya.py`, `tapo_light.py`, `chromecast.py`),
the `DeviceRegistry` (`devices/registry.py`), the `EventBus`
(`core/events.py`) and the `AsyncBridge` (`utils/async_helpers.py`).

Modelling conventions:
  - Python `dict` objects are insertion-ordered association lists with
    unique keys.
  - Python exceptions raised by an operation are modelled with `Except`;
    the taxonomy of the source is `NotImplementedError` (the capability
    error) and `ValueError` (the range error).
  - Python `float` values are modelled as exact rationals; `int(x)`
    truncation toward zero is `pyInt`.
  - Vendor transports (pywizlight, tinytuya, tapo, pychromecast) are
    oracles: a `transportOk : Bool` argument selects the success branch
    or the except branch of each `try` block, and each operation returns
    the list of transport invocations it attempted, so that a spy
    transport can be expressed as that list.
  - Callback references (Python function objects compared by identity)
    are opaque numeric identifiers.
-/

/-! ## Enumerations from devices/base.py -/

inductive DeviceType
  | LIGHT | SWITCH | PLUG | SENSOR | THERMOSTAT | SPEAKER | CAMERA | UNKNOWN
  deriving DecidableEq, Repr

inductive DeviceCapability
  | ON_OFF | BRIGHTNESS | COLOR_TEMP | RGB_COLOR | TEMPERATURE_SENSOR
  | HUMIDITY_SENSOR | POWER_MONITORING | VOLUME | PLAYBACK | SEEK
  deriving DecidableEq, Repr

inductive PlaybackState
  | UNKNOWN | IDLE | PLAYING | PAUSED | BUFFERING
  deriving DecidableEq, Repr

/-- `DeviceState` dataclass of devices/base.py.  Float fields are exact
rationals; `extra` holds opaque vendor data as string pairs. -/
structure DeviceState where
  is_online : Bool := false
  is_on : Option Bool := none
  brightness : Option Int := none
  color_temp : Option Int := none
  rgb : Option (Int × Int × Int) := none
  temperature : Option Rat := none
  humidity : Option Rat := none
  power_watts : Option Rat := none
  volume : Option Int := none
  playback_state : PlaybackState := PlaybackState.UNKNOWN
  media_title : Option String := none
  media_artist : Option String := none
  media_duration : Option Rat := none
  media_position : Option Rat := none
  extra : List (String × String) := []
  deriving DecidableEq, Repr

/-- Python `int(x)` applied to a float: truncation toward zero.  Where a
source expression mixes only integers and literal constants, the same
truncation is written directly with `Int.tdiv` over the common
denominator; `pyInt` is kept for genuinely rational inputs. -/
def pyInt (q : Rat) : Int := q.num.tdiv q.den

/-- The two exception kinds raised by the device layer.
`notImplemented` is `NotImplementedError` (the spec calls it
UnsupportedCapability); `valueError` is `ValueError` (InvalidArgument).
The message text carried by the Python exception is elided. -/
inductive DevError
  | notImplemented
  | valueError
  deriving DecidableEq, Repr

/-! ## EventBus from core/events.py -/

inductive EventType
  | DEVICE_DISCOVERED | DEVICE_CONNECTED | DEVICE_DISCONNECTED
  | DEVICE_STATE_CHANGED | DEVICE_REMOVED
  | DISCOVERY_STARTED | DISCOVERY_STOPPED
  | SETTINGS_CHANGED | APP_MINIMIZED | APP_RESTORED
  deriving DecidableEq, Repr

/-- `Event` dataclass; the `data: Any` payload is opaque. -/
structure Event where
  type : EventType
  data : Option String := none
  deriving DecidableEq, Repr

/-- First-match lookup in the subscriber dict. -/
def busLookup : List (EventType × List Nat) → EventType → Option (List Nat)
  | [], _ => none
  | (t', l) :: rest, t => if t' = t then some l else busLookup rest t

/-- Overwrite the entry for a key, appending it if absent. -/
def busSet : List (EventType × List Nat) → EventType → List Nat → List (EventType × List Nat)
  | [], t, l => [(t, l)]
  | (t', l') :: rest, t, l =>
    if t' = t then (t, l) :: rest else (t', l') :: busSet rest t l

structure EventBus where
  subscribers : List (EventType × List Nat) := []
  deriving DecidableEq, Repr

/-- `EventBus.subscribe`: ensure the key exists, then append the callback
only if it is not already registered for that type. -/
def EventBus.subscribe (bus : EventBus) (event_type : EventType) (callback : Nat) : EventBus :=
  let subs1 :=
    match busLookup bus.subscribers event_type with
    | none => bus.subscribers ++ [(event_type, [])]
    | some _ => bus.subscribers
  let cur := (busLookup subs1 event_type).getD []
  if callback ∈ cur then { subscribers := subs1 }
  else { subscribers := busSet subs1 event_type (cur ++ [callback]) }

/-- The subscriber list the bus holds for a type (empty if the key is
absent). -/
def EventBus.subsFor (bus : EventBus) (t : EventType) : List Nat :=
  (busLookup bus.subscribers t).getD []

/-- Outcome of invoking one subscriber callback. -/
inductive CbOutcome
  | ok
  | raised
  deriving DecidableEq, Repr

/-- The `for callback in self._subscribers[event.type]` loop of
`EventBus.publish`.  Each iteration runs inside `try`; when the callback
raises, the `except` clause logs and the loop continues with the next
subscriber, which is why both branches of the match recurse. -/
def runSubscribers (behave : Nat → Event → CbOutcome) (event : Event) :
    List Nat → List (Nat × CbOutcome)
  | [] => []
  | cb :: rest =>
    match behave cb event with
    | CbOutcome.ok => (cb, CbOutcome.ok) :: runSubscribers behave event rest
    | CbOutcome.raised => (cb, CbOutcome.raised) :: runSubscribers behave event rest

/-- `EventBus.publish`: returns the invocation log (callback, outcome) in
subscription order.  The bus itself is not mutated by publishing. -/
def EventBus.publish (bus : EventBus) (event : Event) (behave : Nat → Event → CbOutcome) :
    List (Nat × CbOutcome) :=
  match busLookup bus.subscribers event.type with
  | none => []
  | some subs => runSubscribers behave event subs

/-! ## AsyncBridge from utils/async_helpers.py -/

/-- The two attributes of `AsyncBridge` that `run_async` consults:
`loopExists` models `self._loop is not None`, `running` models
`self._running`. -/
structure AsyncBridge where
  loopExists : Bool := false
  running : Bool := false
  deriving DecidableEq, Repr

/-- `AsyncBridge.__init__`: no loop, not running. -/
def AsyncBridge.init : AsyncBridge := {}

/-- `AsyncBridge.start`: no-op when already running, otherwise creates the
loop and marks the bridge running. -/
def AsyncBridge.start (b : AsyncBridge) : AsyncBridge :=
  if b.running then b else { loopExists := true, running := true }

/-- `AsyncBridge.stop`: no-op when not running; otherwise clears
`_running` (the `_loop` attribute keeps its non-None value). -/
def AsyncBridge.stop (b : AsyncBridge) : AsyncBridge :=
  if ¬ b.running then b else { b with running := false }

/-- Observable effect of a submission: `scheduled` is the
`asyncio.run_coroutine_threadsafe` call that hands the coroutine to the
loop.  The success and error callbacks only ever run from the done
callback of the future created by that call, so when no `scheduled`
effect occurs neither the coroutine nor either callback can run. -/
inductive BridgeEffect
  | scheduled
  deriving DecidableEq, Repr

/-- `AsyncBridge.run_async`: returns `none` with no effect when the loop
is absent or the bridge is not running; otherwise schedules the coroutine
and returns the future handle. -/
def AsyncBridge.run_async (b : AsyncBridge) : Option Unit × List BridgeEffect :=
  if ¬ b.loopExists ∨ ¬ b.running then (none, [])
  else (some (), [BridgeEffect.scheduled])

/-- `AsyncBridge.run_async_with_gui_callback`: identical guard and
submission; only the completion callbacks are marshalled differently. -/
def AsyncBridge.run_async_with_gui_callback (b : AsyncBridge) : Option Unit × List BridgeEffect :=
  if ¬ b.loopExists ∨ ¬ b.running then (none, [])
  else (some (), [BridgeEffect.scheduled])

/-! ## DeviceRegistry from devices/registry.py -/

/-- The registry stores device objects keyed by id; `tag` stands for the
rest of the object so that two distinct devices can share an id. -/
structure RegDevice where
  device_id : String
  name : String := ""
  tag : Nat := 0
  deriving DecidableEq, Repr

/-- First-match lookup in the `_devices` dict. -/
def lookupKey : List (String × RegDevice) → String → Option RegDevice
  | [], _ => none
  | (k', d) :: rest, k => if k' = k then some d else lookupKey rest k

/-- `dict.pop`: remove the entry for a key. -/
def removeKey : List (String × RegDevice) → String → List (String × RegDevice)
  | [], _ => []
  | (k', d) :: rest, k => if k' = k then rest else (k', d) :: removeKey rest k

structure DeviceRegistry where
  devices : List (String × RegDevice) := []
  on_device_added : List Nat := []
  on_device_removed : List Nat := []
  on_device_updated : List Nat := []
  deriving DecidableEq, Repr

/-- Result of `add_device`: the return value, the registry after the
call, and the fired added-callbacks, each paired with the contents of
`self._devices` at the moment that callback was invoked (the dict is
mutated before the callback loop starts). -/
structure AddResult where
  ret : Bool
  reg : DeviceRegistry
  fired : List (Nat × List (String × RegDevice))
  deriving DecidableEq, Repr

def DeviceRegistry.add_device (r : DeviceRegistry) (d : RegDevice) : AddResult :=
  if (lookupKey r.devices d.device_id).isSome then
    { ret := false, reg := r, fired := [] }
  else
    let devices' := r.devices ++ [(d.device_id, d)]
    { ret := true
      reg := { r with devices := devices' }
      fired := r.on_device_added.map (fun cb => (cb, devices')) }

/-- Result of `remove_device`: the popped device (or `none`), the
registry after the call, and the fired removed-callbacks, each paired
with the contents of `self._devices` at the moment of the call (the
entry is popped before the callback loop starts; the callbacks receive
the id, not the device). -/
structure RemoveResult where
  removed : Option RegDevice
  reg : DeviceRegistry
  fired : List (Nat × List (String × RegDevice))
  deriving DecidableEq, Repr

def DeviceRegistry.remove_device (r : DeviceRegistry) (device_id : String) : RemoveResult :=
  match lookupKey r.devices device_id with
  | none => { removed := none, reg := r, fired := [] }
  | some d =>
    let devices' := removeKey r.devices device_id
    { removed := some d
      reg := { r with devices := devices' }
      fired := r.on_device_removed.map (fun cb => (cb, devices')) }

def DeviceRegistry.get_device (r : DeviceRegistry) (device_id : String) : Option RegDevice :=
  lookupKey r.devices device_id

def DeviceRegistry.device_count (r : DeviceRegistry) : Nat :=
  r.devices.length

/-! ## BaseDevice default operations from devices/base.py

Each default control operation returns the raised exception or the bool
result, paired with the device after the call.  The defaults never touch
`self._state`, so the returned device is the receiver itself on every
path. -/

structure BaseDevice where
  device_id : String
  name : String
  capabilities : List DeviceCapability
  state : DeviceState := {}
  deriving DecidableEq, Repr

def BaseDevice.has_capability (d : BaseDevice) (c : DeviceCapability) : Bool :=
  d.capabilities.contains c

def BaseDevice.turn_on (d : BaseDevice) : Except DevError Bool × BaseDevice :=
  if ¬ d.has_capability DeviceCapability.ON_OFF then
    (Except.error DevError.notImplemented, d)
  else (Except.ok false, d)

def BaseDevice.turn_off (d : BaseDevice) : Except DevError Bool × BaseDevice :=
  if ¬ d.has_capability DeviceCapability.ON_OFF then
    (Except.error DevError.notImplemented, d)
  else (Except.ok false, d)

/-- `BaseDevice.toggle`: `if self._state.is_on:` is Python truthiness, so
`None` and `False` both take the `turn_on` branch. -/
def BaseDevice.toggle (d : BaseDevice) : Except DevError Bool × BaseDevice :=
  if d.state.is_on = some true then d.turn_off else d.turn_on

def BaseDevice.set_brightness (d : BaseDevice) (level : Int) :
    Except DevError Bool × BaseDevice :=
  if ¬ d.has_capability DeviceCapability.BRIGHTNESS then
    (Except.error DevError.notImplemented, d)
  else if ¬ (0 ≤ level ∧ level ≤ 100) then
    (Except.error DevError.valueError, d)
  else (Except.ok false, d)

def BaseDevice.set_color_temp (d : BaseDevice) (_kelvin : Int) :
    Except DevError Bool × BaseDevice :=
  if ¬ d.has_capability DeviceCapability.COLOR_TEMP then
    (Except.error DevError.notImplemented, d)
  else (Except.ok false, d)

def BaseDevice.set_rgb (d : BaseDevice) (r g b : Int) :
    Except DevError Bool × BaseDevice :=
  if ¬ d.has_capability DeviceCapability.RGB_COLOR then
    (Except.error DevError.notImplemented, d)
  else if ¬ ((0 ≤ r ∧ r ≤ 255) ∧ (0 ≤ g ∧ g ≤ 255) ∧ (0 ≤ b ∧ b ≤ 255)) then
    (Except.error DevError.valueError, d)
  else (Except.ok false, d)

def BaseDevice.set_volume (d : BaseDevice) (level : Int) :
    Except DevError Bool × BaseDevice :=
  if ¬ d.has_capability DeviceCapability.VOLUME then
    (Except.error DevError.notImplemented, d)
  else if ¬ (0 ≤ level ∧ level ≤ 100) then
    (Except.error DevError.valueError, d)
  else (Except.ok false, d)

def BaseDevice.play (d : BaseDevice) : Except DevError Bool × BaseDevice :=
  if ¬ d.has_capability DeviceCapability.PLAYBACK then
    (Except.error DevError.notImplemented, d)
  else (Except.ok false, d)

def BaseDevice.pause (d : BaseDevice) : Except DevError Bool × BaseDevice :=
  if ¬ d.has_capability DeviceCapability.PLAYBACK then
    (Except.error DevError.notImplemented, d)
  else (Except.ok false, d)

def BaseDevice.stop (d : BaseDevice) : Except DevError Bool × BaseDevice :=
  if ¬ d.has_capability DeviceCapability.PLAYBACK then
    (Except.error DevError.notImplemented, d)
  else (Except.ok false, d)

def BaseDevice.seek (d : BaseDevice) (_position : Rat) :
    Except DevError Bool × BaseDevice :=
  if ¬ d.has_capability DeviceCapability.SEEK then
    (Except.error DevError.notImplemented, d)
  else (Except.ok false, d)

def BaseDevice.seek_relative (d : BaseDevice) (_offset : Rat) :
    Except DevError Bool × BaseDevice :=
  if ¬ d.has_capability DeviceCapability.SEEK then
    (Except.error DevError.notImplemented, d)
  else (Except.ok false, d)

/-! ## WizDevice from devices/wiz.py -/

/-- Transport invocations a `WizDevice` can attempt on the pywizlight
bulb object. -/
inductive WizCall
  | turn_on_pilot (brightness : Option Int) (rgb : Option (Int × Int × Int))
  | turn_off
  | update_state
  deriving DecidableEq, Repr

/-- What `bulb.updateState()` returned: the getters of the pilot parser.
`none` in `rgb` also covers the `(None, None, None)` tuple the source
filters out. -/
structure WizPilot where
  state_on : Bool
  brightness : Option Int
  colortemp : Option Int
  rgb : Option (Int × Int × Int)
  deriving DecidableEq, Repr

structure WizDevice where
  device_id : String
  name : String
  hasBulb : Bool
  state : DeviceState
  deriving DecidableEq, Repr

/-- `WizDevice.capabilities` is a fixed set. -/
def WizDevice.capabilities : List DeviceCapability :=
  [DeviceCapability.ON_OFF, DeviceCapability.BRIGHTNESS, DeviceCapability.RGB_COLOR]

/-- `WizDevice.__init__` state initialisation. -/
def WizDevice.initState : DeviceState :=
  { is_online := true, is_on := some false, brightness := some 0 }

/-- `WizDevice.refresh_state`.  `transport` is what the guarded
`await self._bulb.updateState()` did: `Except.error` is the raised
transport exception, `Except.ok none` a falsy pilot, `Except.ok (some p)`
a parsed pilot.  The source updates `is_on`, then `brightness` (clamped,
or a default read from the just-written `is_on`), then `is_online`, then
`color_temp` only when truthy (non-None and nonzero), then `rgb`. -/
def WizDevice.refresh_state (d : WizDevice) (transport : Except Unit (Option WizPilot)) :
    WizDevice :=
  if ¬ d.hasBulb then d
  else
    match transport with
    | Except.error _ => { d with state := { d.state with is_online := false } }
    | Except.ok none => d
    | Except.ok (some pilot) =>
      let st1 := { d.state with is_on := some pilot.state_on }
      let st2 :=
        match pilot.brightness with
        | some raw =>
          let converted := max 0 (min 100 (Int.tdiv ((raw - 10) * 100) 245))
          { st1 with brightness := some converted }
        | none =>
          { st1 with brightness := some (if pilot.state_on then 100 else 0) }
      let st3 := { st2 with is_online := true }
      let st4 :=
        match pilot.colortemp with
        | some c => if c ≠ 0 then { st3 with color_temp := some c } else st3
        | none => st3
      let st5 :=
        match pilot.rgb with
        | some t => { st4 with rgb := some t }
        | none => st4
      { d with state := st5 }

def WizDevice.turn_on (d : WizDevice) (transportOk : Bool) :
    Except DevError Bool × WizDevice × List WizCall :=
  if ¬ d.hasBulb then (Except.ok false, d, [])
  else if transportOk then
    (Except.ok true, { d with state := { d.state with is_on := some true } },
     [WizCall.turn_on_pilot none none])
  else (Except.ok false, d, [WizCall.turn_on_pilot none none])

def WizDevice.turn_off (d : WizDevice) (transportOk : Bool) :
    Except DevError Bool × WizDevice × List WizCall :=
  if ¬ d.hasBulb then (Except.ok false, d, [])
  else if transportOk then
    (Except.ok true, { d with state := { d.state with is_on := some false } },
     [WizCall.turn_off])
  else (Except.ok false, d, [WizCall.turn_off])

/-- `WizDevice.toggle`: same truthiness branch as the base class. -/
def WizDevice.toggle (d : WizDevice) (transportOk : Bool) :
    Except DevError Bool × WizDevice × List WizCall :=
  if d.state.is_on = some true then d.turn_off transportOk else d.turn_on transportOk

/-- `WizDevice.set_brightness`: no capability check and no range check.
The requested level is converted to the 10-255 bulb range, clamped there,
and sent; on success the state stores the raw `level` and
`is_on := level > 0`. -/
def WizDevice.set_brightness (d : WizDevice) (transportOk : Bool) (level : Int) :
    Except DevError Bool × WizDevice × List WizCall :=
  if ¬ d.hasBulb then (Except.ok false, d, [])
  else
    let wiz_brightness0 := Int.tdiv (1000 + level * 245) 100
    let wiz_brightness := max 10 (min 255 wiz_brightness0)
    if transportOk then
      (Except.ok true,
       { d with state :=
          { d.state with brightness := some level, is_on := some (decide (0 < level)) } },
       [WizCall.turn_on_pilot (some wiz_brightness) none])
    else (Except.ok false, d, [WizCall.turn_on_pilot (some wiz_brightness) none])

/-- `WizDevice.set_rgb`: no capability check and no range check either. -/
def WizDevice.set_rgb (d : WizDevice) (transportOk : Bool) (r g b : Int) :
    Except DevError Bool × WizDevice × List WizCall :=
  if ¬ d.hasBulb then (Except.ok false, d, [])
  else if transportOk then
    (Except.ok true,
     { d with state := { d.state with rgb := some (r, g, b), is_on := some true } },
     [WizCall.turn_on_pilot none (some (r, g, b))])
  else (Except.ok false, d, [WizCall.turn_on_pilot none (some (r, g, b))])

/-! ## TuyaDevice from devices/tuya.py -/

/-- Transport invocations on the tinytuya device object. -/
inductive TuyaCall
  | turn_on
  | turn_off
  | set_status (value : Bool) (dps : String)
  | set_brightness (raw : Int)
  | set_colourtemp (raw : Int)
  | set_colour (r g b : Int)
  | status
  deriving DecidableEq, Repr

/-- The `dps` dict of a tinytuya status response, restricted to the keys
`refresh_state` reads: "1" (switch), "20" (bulb switch), "22"
(brightness 10-1000), "23" (colour temperature 0-1000). -/
structure TuyaStatus where
  dps_switch : Option Bool := none
  dps_switch_led : Option Bool := none
  dps_brightness : Option Int := none
  dps_color_temp : Option Int := none
  deriving DecidableEq, Repr

structure TuyaDevice where
  device_id : String
  name : String
  device_type_str : String
  hasDevice : Bool
  state : DeviceState
  deriving DecidableEq, Repr

/-- `TuyaDevice.capabilities`: always ON_OFF; lights additionally get
BRIGHTNESS, COLOR_TEMP and RGB_COLOR. -/
def TuyaDevice.capabilities (d : TuyaDevice) : List DeviceCapability :=
  if d.device_type_str = "light" then
    [DeviceCapability.ON_OFF, DeviceCapability.BRIGHTNESS,
     DeviceCapability.COLOR_TEMP, DeviceCapability.RGB_COLOR]
  else [DeviceCapability.ON_OFF]

def TuyaDevice.has_capability (d : TuyaDevice) (c : DeviceCapability) : Bool :=
  d.capabilities.contains c

/-- `TuyaDevice.refresh_state`.  `transport` is what the guarded
`self._device.status()` did: `Except.error` a raised exception,
`Except.ok none` a response without a truthy `dps` entry,
`Except.ok (some dps)` a parsed status.  Lights read dps 20/22/23 with
defaults False/0/0; other types read dps 1. -/
def TuyaDevice.refresh_state (d : TuyaDevice) (transport : Except Unit (Option TuyaStatus)) :
    TuyaDevice :=
  if ¬ d.hasDevice then d
  else
    match transport with
    | Except.error _ => { d with state := { d.state with is_online := false } }
    | Except.ok none => { d with state := { d.state with is_online := false } }
    | Except.ok (some dps) =>
      let st1 := { d.state with is_online := true }
      if d.device_type_str = "light" then
        let is_on_val := dps.dps_switch_led.getD false
        let raw_brightness := dps.dps_brightness.getD 0
        let bright := max 0 (min 100 (Int.tdiv raw_brightness 10))
        let raw_temp := dps.dps_color_temp.getD 0
        let ct := Int.tdiv (2700000 + raw_temp * 3800) 1000
        { d with state :=
            { st1 with is_on := some is_on_val, brightness := some bright,
                       color_temp := some ct } }
      else
        { d with state := { st1 with is_on := some (dps.dps_switch.getD false) } }

/-- `TuyaDevice.set_brightness`: capability check, then range check, then
device-handle check, then the transport call with the level converted to
the 10-1000 range; on success the state stores the raw `level`. -/
def TuyaDevice.set_brightness (d : TuyaDevice) (transportOk : Bool) (level : Int) :
    Except DevError Bool × TuyaDevice × List TuyaCall :=
  if ¬ d.has_capability DeviceCapability.BRIGHTNESS then
    (Except.error DevError.notImplemented, d, [])
  else if ¬ (0 ≤ level ∧ level ≤ 100) then
    (Except.error DevError.valueError, d, [])
  else if ¬ d.hasDevice then (Except.ok false, d, [])
  else
    let tuya_brightness := max 10 (level * 10)
    if transportOk then
      (Except.ok true,
       { d with state := { d.state with brightness := some level } },
       [TuyaCall.set_brightness tuya_brightness])
    else (Except.ok false, d, [TuyaCall.set_brightness tuya_brightness])

/-- `TuyaDevice.set_color_temp`: capability check, then device-handle
check, then the transport call with the kelvin value clamped to
2700-6500 and converted to the 0-1000 range. -/
def TuyaDevice.set_color_temp (d : TuyaDevice) (transportOk : Bool) (kelvin : Int) :
    Except DevError Bool × TuyaDevice × List TuyaCall :=
  if ¬ d.has_capability DeviceCapability.COLOR_TEMP then
    (Except.error DevError.notImplemented, d, [])
  else if ¬ d.hasDevice then (Except.ok false, d, [])
  else
    let kelvin' := max 2700 (min 6500 kelvin)
    let tuya_temp := Int.tdiv ((kelvin' - 2700) * 1000) 3800
    if transportOk then
      (Except.ok true,
       { d with state := { d.state with color_temp := some kelvin' } },
       [TuyaCall.set_colourtemp tuya_temp])
    else (Except.ok false, d, [TuyaCall.set_colourtemp tuya_temp])

/-- `TuyaDevice.set_rgb`: capability check, then range check, then
device-handle check, then the transport call. -/
def TuyaDevice.set_rgb (d : TuyaDevice) (transportOk : Bool) (r g b : Int) :
    Except DevError Bool × TuyaDevice × List TuyaCall :=
  if ¬ d.has_capability DeviceCapability.RGB_COLOR then
    (Except.error DevError.notImplemented, d, [])
  else if ¬ ((0 ≤ r ∧ r ≤ 255) ∧ (0 ≤ g ∧ g ≤ 255) ∧ (0 ≤ b ∧ b ≤ 255)) then
    (Except.error DevError.valueError, d, [])
  else if ¬ d.hasDevice then (Except.ok false, d, [])
  else if transportOk then
    (Except.ok true,
     { d with state := { d.state with rgb := some (r, g, b) } },
     [TuyaCall.set_colour r g b])
  else (Except.ok false, d, [TuyaCall.set_colour r g b])

/-! ## TapoDevice from devices/tapo_light.py -/

/-- Transport invocations on the tapo device handler. -/
inductive TapoCall
  | handler_on
  | handler_off
  | set_brightness (level : Int)
  | set_hue_saturation (h s : Int)
  | get_device_info
  deriving DecidableEq, Repr

structure TapoDevice where
  device_id : String
  name : String
  supports_color : Bool
  hasDevice : Bool
  state : DeviceState
  deriving DecidableEq, Repr

/-- `TapoDevice.capabilities`: ON_OFF and BRIGHTNESS always; RGB_COLOR
only once `_supports_color` has been detected. -/
def TapoDevice.capabilities (d : TapoDevice) : List DeviceCapability :=
  [DeviceCapability.ON_OFF, DeviceCapability.BRIGHTNESS] ++
    (if d.supports_color then [DeviceCapability.RGB_COLOR] else [])

def TapoDevice.has_capability (d : TapoDevice) (c : DeviceCapability) : Bool :=
  d.capabilities.contains c

/-- Python float modulo (sign follows the divisor). -/
def ratMod (a b : Rat) : Rat := a - b * ((a / b).floor : Rat)

/-- `TapoDevice._rgb_to_hsv`, in exact rational arithmetic. -/
def rgb_to_hsv (r g b : Int) : Int × Int × Int :=
  let r' : Rat := (r : Rat) / 255
  let g' : Rat := (g : Rat) / 255
  let b' : Rat := (b : Rat) / 255
  let mx := max r' (max g' b')
  let mn := min r' (min g' b')
  let diff := mx - mn
  let h : Rat :=
    if mx = mn then 0
    else if mx = r' then ratMod (60 * ((g' - b') / diff) + 360) 360
    else if mx = g' then ratMod (60 * ((b' - r') / diff) + 120) 360
    else ratMod (60 * ((r' - g') / diff) + 240) 360
  let s : Rat := if mx = 0 then 0 else (diff / mx) * 100
  let v : Rat := mx * 100
  (pyInt h, pyInt s, pyInt v)

/-- `TapoDevice.set_brightness`: no capability check and no range check;
the requested level is passed to the handler as-is and stored as-is. -/
def TapoDevice.set_brightness (d : TapoDevice) (transportOk : Bool) (level : Int) :
    Except DevError Bool × TapoDevice × List TapoCall :=
  if ¬ d.hasDevice then (Except.ok false, d, [])
  else if transportOk then
    (Except.ok true,
     { d with state :=
        { d.state with brightness := some level, is_on := some (decide (0 < level)) } },
     [TapoCall.set_brightness level])
  else (Except.ok false, d, [TapoCall.set_brightness level])

/-- `TapoDevice.set_rgb`: no capability check; converts RGB to HSV and
calls `set_hue_saturation`, then stores the rgb triple. -/
def TapoDevice.set_rgb (d : TapoDevice) (transportOk : Bool) (r g b : Int) :
    Except DevError Bool × TapoDevice × List TapoCall :=
  if ¬ d.hasDevice then (Except.ok false, d, [])
  else
    let hsv := rgb_to_hsv r g b
    if transportOk then
      (Except.ok true,
       { d with state := { d.state with rgb := some (r, g, b), is_on := some true } },
       [TapoCall.set_hue_saturation hsv.1 hsv.2.1])
    else (Except.ok false, d, [TapoCall.set_hue_saturation hsv.1 hsv.2.1])

/-! ## ChromecastDevice from devices/chromecast.py -/

/-- The fields of `self._cast.status` that the device reads. -/
structure CastStatus where
  volume_level : Rat
  is_stand_by : Bool
  app_id : Option String
  deriving DecidableEq, Repr

/-- Transport invocations on the pychromecast cast object. -/
inductive CastCall
  | quit_app
  | cast_set_volume (v : Rat)
  | media_play
  | media_pause
  | media_stop
  deriving DecidableEq, Repr

structure ChromecastDevice where
  device_id : String
  name : String
  hasCast : Bool
  cast_status : Option CastStatus
  state : DeviceState
  pending_volume : Option Int
  deriving DecidableEq, Repr

/-- `ChromecastDevice.capabilities` is a fixed set. -/
def ChromecastDevice.capabilities : List DeviceCapability :=
  [DeviceCapability.ON_OFF, DeviceCapability.VOLUME, DeviceCapability.PLAYBACK]

/-- Python truthiness of `status.app_id`: None and the empty string are
falsy. -/
def strTruthy : Option String → Bool
  | none => false
  | some s => s ≠ ""

/-- `ChromecastDevice.turn_on` is an explicit no-op returning True. -/
def ChromecastDevice.turn_on (d : ChromecastDevice) :
    Except DevError Bool × ChromecastDevice × List CastCall :=
  (Except.ok true, d, [])

/-- `ChromecastDevice.turn_off`: `quit_app` on the cast object; the
device state is not touched. -/
def ChromecastDevice.turn_off (d : ChromecastDevice) (transportOk : Bool) :
    Except DevError Bool × ChromecastDevice × List CastCall :=
  if ¬ d.hasCast then (Except.ok false, d, [])
  else if transportOk then (Except.ok true, d, [CastCall.quit_app])
  else (Except.ok false, d, [CastCall.quit_app])

/-- `ChromecastDevice.toggle` does not branch on `is_on`: it computes
`has_active_app` from `self._cast.status.app_id` (treating the backdrop
app id "E8C28D3C" as inactive) and quits the app when one is active,
otherwise returns True without attempting anything. -/
def ChromecastDevice.toggle (d : ChromecastDevice) (transportOk : Bool) :
    Except DevError Bool × ChromecastDevice × List CastCall :=
  if ¬ d.hasCast then (Except.ok false, d, [])
  else
    let has_active_app :=
      match d.cast_status with
      | some st =>
        if strTruthy st.app_id then decide (st.app_id ≠ some "E8C28D3C") else false
      | none => false
    if has_active_app then d.turn_off transportOk
    else (Except.ok true, d, [])

/-- `ChromecastDevice.set_volume`: records the pending volume and arms
the debounce timer; no transport call and no range check happen here. -/
def ChromecastDevice.set_volume (d : ChromecastDevice) (level : Int) :
    Except DevError Bool × ChromecastDevice × List CastCall :=
  if ¬ d.hasCast then (Except.ok false, d, [])
  else (Except.ok true, { d with pending_volume := some level }, [])

/-- `ChromecastDevice._send_volume` (the debounce timer body): sends the
pending volume clamped to the 0.0-1.0 cast range, stores the raw pending
value in the state on success, and always clears the pending slot. -/
def ChromecastDevice.send_volume (d : ChromecastDevice) (transportOk : Bool) :
    ChromecastDevice × List CastCall :=
  match d.pending_volume with
  | none => (d, [])
  | some pv =>
    if ¬ d.hasCast then (d, [])
    else
      let volume : Rat := max 0 (min 1 ((pv : Rat) / 100))
      if transportOk then
        ({ d with state := { d.state with volume := some pv }, pending_volume := none },
         [CastCall.cast_set_volume volume])
      else ({ d with pending_volume := none }, [CastCall.cast_set_volume volume])

/-- `ChromecastDevice.refresh_state`: reads volume and standby from
`self._cast.status` when a cast object with a status is present. -/
def ChromecastDevice.refresh_state (d : ChromecastDevice) : ChromecastDevice :=
  if d.hasCast then
    match d.cast_status with
    | some st =>
      { d with state :=
          { d.state with volume := some (pyInt (st.volume_level * 100)),
                         is_on := some (!st.is_stand_by), is_online := true } }
    | none => d
  else d

/-! ## Helper lemmas -/

theorem lookupKey_append_self (l : List (String × RegDevice)) (k : String) (d : RegDevice)
    (h : lookupKey l k = none) : lookupKey (l ++ [(k, d)]) k = some d := by
  induction l with
  | nil => simp [lookupKey]
  | cons hd tl ih =>
    obtain ⟨k', d'⟩ := hd
    by_cases hk : k' = k
    · simp [lookupKey, hk] at h
    · simp only [lookupKey, List.cons_append, if_neg hk] at h ⊢
      exact ih h

theorem lookupKey_eq_none_of_not_mem (l : List (String × RegDevice)) (k : String)
    (h : k ∉ l.map Prod.fst) : lookupKey l k = none := by
  induction l with
  | nil => rfl
  | cons hd tl ih =>
    obtain ⟨k', d'⟩ := hd
    simp only [List.map_cons, List.mem_cons] at h
    push_neg at h
    have hne : ¬ (k' = k) := fun hk => h.1 hk.symm
    simp only [lookupKey, if_neg hne]
    exact ih h.2

theorem lookupKey_removeKey_self (l : List (String × RegDevice)) (k : String)
    (h : (l.map Prod.fst).Nodup) : lookupKey (removeKey l k) k = none := by
  induction l with
  | nil => rfl
  | cons hd tl ih =>
    obtain ⟨k', d'⟩ := hd
    simp only [List.map_cons, List.nodup_cons] at h
    by_cases hk : k' = k
    · simp only [removeKey, if_pos hk]
      exact lookupKey_eq_none_of_not_mem tl k (hk ▸ h.1)
    · simp only [removeKey, if_neg hk, lookupKey, if_neg hk]
      exact ih h.2

theorem busLookup_busSet_self (l : List (EventType × List Nat)) (t : EventType)
    (v : List Nat) : busLookup (busSet l t v) t = some v := by
  induction l with
  | nil => simp [busSet, busLookup]
  | cons hd tl ih =>
    obtain ⟨t', l'⟩ := hd
    by_cases ht : t' = t
    · simp [busSet, busLookup, ht]
    · simp only [busSet, if_neg ht, busLookup, ih, if_neg ht]

theorem busLookup_append_self (l : List (EventType × List Nat)) (t : EventType)
    (v : List Nat) (h : busLookup l t = none) : busLookup (l ++ [(t, v)]) t = some v := by
  induction l with
  | nil => simp [busLookup]
  | cons hd tl ih =>
    obtain ⟨t', l'⟩ := hd
    by_cases ht : t' = t
    · simp [busLookup, ht] at h
    · simp only [busLookup, if_neg ht] at h
      simp only [List.cons_append, busLookup, if_neg ht]
      exact ih h

/-- After `subscribe`, the bus holds for `t` the previous list when the
callback was already registered, and the previous list with the callback
appended otherwise. -/
theorem subscribe_lookup (bus : EventBus) (t : EventType) (c : Nat) :
    busLookup (bus.subscribe t c).subscribers t =
      some (if c ∈ bus.subsFor t then bus.subsFor t else bus.subsFor t ++ [c]) := by
  unfold EventBus.subscribe EventBus.subsFor
  cases h : busLookup bus.subscribers t with
  | none =>
    have h1 : busLookup (bus.subscribers ++ [(t, [])]) t = some [] :=
      busLookup_append_self bus.subscribers t [] h
    simp only [h, h1, Option.getD_some, Option.getD_none]
    simp [busLookup_busSet_self]
  | some l =>
    simp only [h, Option.getD_some]
    by_cases hc : c ∈ l
    · simp [hc, h]
    · simp [hc, busLookup_busSet_self]

theorem runSubscribers_map_fst (behave : Nat → Event → CbOutcome) (event : Event)
    (l : List Nat) : (runSubscribers behave event l).map Prod.fst = l := by
  induction l with
  | nil => rfl
  | cons cb rest ih =>
    cases hb : behave cb event <;>
      simp only [runSubscribers, hb, List.map_cons, ih]

theorem runSubscribers_mem (behave : Nat → Event → CbOutcome) (event : Event)
    (l : List Nat) (c : Nat) (h : c ∈ l) :
    (c, behave c event) ∈ runSubscribers behave event l := by
  induction l with
  | nil => simp at h
  | cons cb rest ih =>
    rcases List.mem_cons.mp h with h1 | h2
    · subst h1
      cases hb : behave c event <;> simp [runSubscribers, hb]
    · cases hb : behave cb event <;>
        · simp only [runSubscribers, hb, List.mem_cons]
          exact Or.inr (ih h2)

/-! ## Claim theorems -/

/-- C1: `add_device(d)` returns true iff `d.device_id` is not already a
key of the registry; when the id is present the call is a no-op (the
registry, hence the stored device and the size, is unchanged and no
callbacks fire); adding twice with the same id returns true then false,
the size grows by exactly one over the starting registry, and the stored
device stays the first one. -/
theorem C1_add_device_spec (r : DeviceRegistry) (d : RegDevice) :
    ((r.add_device d).ret = true ↔ r.get_device d.device_id = none) ∧
    (r.get_device d.device_id ≠ none →
      (r.add_device d).reg = r ∧ (r.add_device d).fired = []) ∧
    (r.get_device d.device_id = none →
      (r.add_device d).ret = true ∧
      ((r.add_device d).reg.add_device d).ret = false ∧
      ((r.add_device d).reg.add_device d).reg = (r.add_device d).reg ∧
      ((r.add_device d).reg.add_device d).fired = [] ∧
      ((r.add_device d).reg.add_device d).reg.device_count = r.device_count + 1 ∧
      ((r.add_device d).reg.add_device d).reg.get_device d.device_id = some d) := by
  unfold DeviceRegistry.add_device DeviceRegistry.get_device DeviceRegistry.device_count
  cases h : lookupKey r.devices d.device_id with
  | some dv => simp [h]
  | none =>
    have h2 : lookupKey (r.devices ++ [(d.device_id, d)]) d.device_id = some d :=
      lookupKey_append_self _ _ _ h
    simp [h, h2]

def regW : DeviceRegistry :=
  { devices := [], on_device_added := [7], on_device_removed := [9], on_device_updated := [] }

def devLamp : RegDevice := { device_id := "lamp-1", name := "Lamp", tag := 0 }

/-- Witness for C1 on an empty registry with one added-callback. -/
theorem C1_add_device_spec_witness :
    regW.get_device "lamp-1" = none ∧
    ((regW.add_device devLamp).ret = true ∧
     ((regW.add_device devLamp).reg.add_device devLamp).ret = false ∧
     ((regW.add_device devLamp).reg.add_device devLamp).reg = (regW.add_device devLamp).reg ∧
     ((regW.add_device devLamp).reg.add_device devLamp).fired = [] ∧
     ((regW.add_device devLamp).reg.add_device devLamp).reg.device_count
        = regW.device_count + 1 ∧
     ((regW.add_device devLamp).reg.add_device devLamp).reg.get_device "lamp-1"
        = some devLamp) :=
  ⟨rfl, (C1_add_device_spec regW devLamp).2.2 rfl⟩

/-- C10: the registry dict is mutated before the lifecycle callbacks run:
every added-callback fired by `add_device d` observes a registry that
already maps `d.device_id` to `d`, and every removed-callback fired by
`remove_device id` observes a registry in which `id` is already absent. -/
theorem C10_mutation_precedes_callbacks (r : DeviceRegistry) (d : RegDevice) (cb : Nat)
    (obs : List (String × RegDevice)) (hwf : (r.devices.map Prod.fst).Nodup) :
    ((cb, obs) ∈ (r.add_device d).fired → lookupKey obs d.device_id = some d) ∧
    (∀ device_id : String, (cb, obs) ∈ (r.remove_device device_id).fired →
      lookupKey obs device_id = none) := by
  constructor
  · intro hmem
    cases h : lookupKey r.devices d.device_id with
    | some dv => simp [DeviceRegistry.add_device, h] at hmem
    | none =>
      simp only [DeviceRegistry.add_device, h, Option.isSome_none, Bool.false_eq_true,
        if_false] at hmem
      rcases List.mem_map.mp hmem with ⟨a, _, heq⟩
      cases heq
      exact lookupKey_append_self _ _ _ h
  · intro device_id hmem
    cases h : lookupKey r.devices device_id with
    | none => simp [DeviceRegistry.remove_device, h] at hmem
    | some dv =>
      simp only [DeviceRegistry.remove_device, h] at hmem
      rcases List.mem_map.mp hmem with ⟨a, _, heq⟩
      cases heq
      exact lookupKey_removeKey_self _ _ hwf

def devSpeaker : RegDevice := { device_id := "cc-9", name := "Speaker", tag := 1 }

def regTwo : DeviceRegistry :=
  { devices := [("cc-9", devSpeaker)],
    on_device_added := [3], on_device_removed := [4], on_device_updated := [] }

def obsAdd : List (String × RegDevice) := (regTwo.add_device devLamp).reg.devices

def obsRem : List (String × RegDevice) := (regTwo.remove_device "cc-9").reg.devices

/-- Witness for C10: on a concrete one-device registry, the added
callback observes the new device and the removed callback observes the
absence. -/
theorem C10_mutation_precedes_callbacks_witness :
    (regTwo.devices.map Prod.fst).Nodup ∧
    (3, obsAdd) ∈ (regTwo.add_device devLamp).fired ∧
    lookupKey obsAdd "lamp-1" = some devLamp ∧
    (4, obsRem) ∈ (regTwo.remove_device "cc-9").fired ∧
    lookupKey obsRem "cc-9" = none :=
  ⟨by decide, by decide,
   (C10_mutation_precedes_callbacks regTwo devLamp 3 obsAdd (by decide)).1 (by decide),
   by decide,
   (C10_mutation_precedes_callbacks regTwo devSpeaker 4 obsRem (by decide)).2 "cc-9"
     (by decide)⟩

/-- C9: `run_async` (and `run_async_with_gui_callback`) called on a
bridge that is not running, either freshly constructed or after any
`stop()`, returns `none` and produces no effect: the coroutine is never
scheduled, so neither it nor the completion callbacks ever run. -/
theorem C9_run_async_requires_running :
    (AsyncBridge.init.run_async = (none, []) ∧
     AsyncBridge.init.run_async_with_gui_callback = (none, [])) ∧
    (∀ b : AsyncBridge, b.stop.run_async = (none, []) ∧
      b.stop.run_async_with_gui_callback = (none, [])) := by
  refine ⟨⟨rfl, rfl⟩, fun b => ?_⟩
  unfold AsyncBridge.stop AsyncBridge.run_async AsyncBridge.run_async_with_gui_callback
  by_cases h : b.running <;> simp [h]

/-- If the bus already holds the callback for the type, `subscribe` is a
no-op. -/
theorem subscribe_noop (bus : EventBus) (t : EventType) (c : Nat) (L : List Nat)
    (hL : busLookup bus.subscribers t = some L) (hc : c ∈ L) :
    bus.subscribe t c = bus := by
  unfold EventBus.subscribe
  simp [hL, hc]

/-- C7: subscribing the same callback reference twice for the same event
type leaves the bus exactly as after one subscription, and a single
publish of an event of that type then invokes the callback exactly once
(for a callback not registered beforehand). -/
theorem C7_subscribe_idempotent (bus : EventBus) (t : EventType) (c : Nat) (ev : Event)
    (behave : Nat → Event → CbOutcome) (hty : ev.type = t) :
    (bus.subscribe t c).subscribe t c = bus.subscribe t c ∧
    (c ∉ bus.subsFor t →
      ((((bus.subscribe t c).subscribe t c).publish ev behave).map Prod.fst).count c = 1) := by
  have hl := subscribe_lookup bus t c
  have hcmem : c ∈ (if c ∈ bus.subsFor t then bus.subsFor t else bus.subsFor t ++ [c]) := by
    by_cases hc : c ∈ bus.subsFor t <;> simp [hc]
  have hidem : (bus.subscribe t c).subscribe t c = bus.subscribe t c :=
    subscribe_noop _ t c _ hl hcmem
  refine ⟨hidem, fun hnotin => ?_⟩
  rw [hidem]
  have hpub : (bus.subscribe t c).publish ev behave =
      runSubscribers behave ev (bus.subsFor t ++ [c]) := by
    unfold EventBus.publish
    rw [hty, hl, if_neg hnotin]
  rw [hpub, runSubscribers_map_fst, List.count_append,
    List.count_eq_zero.mpr hnotin]
  simp

def busW : EventBus := {}

def evW : Event := { type := EventType.DEVICE_DISCOVERED }

def behaveOk : Nat → Event → CbOutcome := fun _ _ => CbOutcome.ok

/-- Witness for C7 on the empty bus with callback reference 5. -/
theorem C7_subscribe_idempotent_witness :
    evW.type = EventType.DEVICE_DISCOVERED ∧
    (5 : Nat) ∉ busW.subsFor EventType.DEVICE_DISCOVERED ∧
    (busW.subscribe EventType.DEVICE_DISCOVERED 5).subscribe EventType.DEVICE_DISCOVERED 5
      = busW.subscribe EventType.DEVICE_DISCOVERED 5 ∧
    (((((busW.subscribe EventType.DEVICE_DISCOVERED 5).subscribe
        EventType.DEVICE_DISCOVERED 5).publish evW behaveOk).map Prod.fst).count 5) = 1 :=
  ⟨rfl, by decide,
   (C7_subscribe_idempotent busW EventType.DEVICE_DISCOVERED 5 evW behaveOk rfl).1,
   (C7_subscribe_idempotent busW EventType.DEVICE_DISCOVERED 5 evW behaveOk rfl).2
     (by decide)⟩

/-- C8: `publish` invokes every subscriber registered for the event type,
in subscription order, whatever each callback does (a raising subscriber
is caught and later subscribers still run); with zero subscribers the
invocation log is empty and nothing is raised. -/
theorem C8_publish_isolation (bus : EventBus) (ev : Event)
    (behave : Nat → Event → CbOutcome) :
    ((bus.publish ev behave).map Prod.fst = bus.subsFor ev.type) ∧
    (∀ c : Nat, c ∈ bus.subsFor ev.type → (c, behave c ev) ∈ bus.publish ev behave) ∧
    (bus.subsFor ev.type = [] → bus.publish ev behave = []) := by
  cases h : busLookup bus.subscribers ev.type with
  | none => simp [EventBus.publish, EventBus.subsFor, h]
  | some subs =>
    simp only [EventBus.publish, EventBus.subsFor, h, Option.getD_some]
    exact ⟨runSubscribers_map_fst _ _ _,
           fun c hc => runSubscribers_mem _ _ _ c hc,
           fun hsub => by rw [hsub]; rfl⟩

def busTwo : EventBus := { subscribers := [(EventType.DEVICE_REMOVED, [1, 2])] }

def evRem : Event := { type := EventType.DEVICE_REMOVED }

/-- Callback 1 raises, callback 2 succeeds. -/
def behaveFirstRaises : Nat → Event → CbOutcome :=
  fun n _ => if n = 1 then CbOutcome.raised else CbOutcome.ok

/-- Witness for C8: with subscriber 1 raising, the later subscriber 2 is
still invoked. -/
theorem C8_publish_isolation_witness :
    (2 : Nat) ∈ busTwo.subsFor EventType.DEVICE_REMOVED ∧
    (2, behaveFirstRaises 2 evRem) ∈ busTwo.publish evRem behaveFirstRaises :=
  ⟨by decide,
   (C8_publish_isolation busTwo evRem behaveFirstRaises).2.1 2 (by decide)⟩

/-- C2 (amended): every gated default operation of `BaseDevice`, and
every gated override of `TuyaDevice`, checks the capability first — for a
device lacking the capability it raises the capability error
(`NotImplementedError`) whatever the arguments are, before any range
validation, with the device state unchanged and zero transport
invocations.  (The amendment excludes `TapoDevice.set_rgb`, which
performs no capability check — see the counterexample.) -/
theorem C2_capability_gating :
    (∀ d : BaseDevice, d.has_capability DeviceCapability.ON_OFF = false →
      d.turn_on = (Except.error DevError.notImplemented, d) ∧
      d.turn_off = (Except.error DevError.notImplemented, d)) ∧
    (∀ (d : BaseDevice) (level : Int), d.has_capability DeviceCapability.BRIGHTNESS = false →
      d.set_brightness level = (Except.error DevError.notImplemented, d)) ∧
    (∀ (d : BaseDevice) (kelvin : Int), d.has_capability DeviceCapability.COLOR_TEMP = false →
      d.set_color_temp kelvin = (Except.error DevError.notImplemented, d)) ∧
    (∀ (d : BaseDevice) (r g b : Int), d.has_capability DeviceCapability.RGB_COLOR = false →
      d.set_rgb r g b = (Except.error DevError.notImplemented, d)) ∧
    (∀ (d : BaseDevice) (level : Int), d.has_capability DeviceCapability.VOLUME = false →
      d.set_volume level = (Except.error DevError.notImplemented, d)) ∧
    (∀ d : BaseDevice, d.has_capability DeviceCapability.PLAYBACK = false →
      d.play = (Except.error DevError.notImplemented, d) ∧
      d.pause = (Except.error DevError.notImplemented, d) ∧
      d.stop = (Except.error DevError.notImplemented, d)) ∧
    (∀ (d : BaseDevice) (position offset : Rat),
      d.has_capability DeviceCapability.SEEK = false →
      d.seek position = (Except.error DevError.notImplemented, d) ∧
      d.seek_relative offset = (Except.error DevError.notImplemented, d)) ∧
    (∀ (td : TuyaDevice) (t : Bool) (level : Int),
      td.has_capability DeviceCapability.BRIGHTNESS = false →
      td.set_brightness t level = (Except.error DevError.notImplemented, td, [])) ∧
    (∀ (td : TuyaDevice) (t : Bool) (kelvin : Int),
      td.has_capability DeviceCapability.COLOR_TEMP = false →
      td.set_color_temp t kelvin = (Except.error DevError.notImplemented, td, [])) ∧
    (∀ (td : TuyaDevice) (t : Bool) (r g b : Int),
      td.has_capability DeviceCapability.RGB_COLOR = false →
      td.set_rgb t r g b = (Except.error DevError.notImplemented, td, [])) := by
  refine ⟨fun d h => ?_, fun d level h => ?_, fun d kelvin h => ?_,
    fun d r g b h => ?_, fun d level h => ?_, fun d h => ?_,
    fun d position offset h => ?_, fun td t level h => ?_,
    fun td t kelvin h => ?_, fun td t r g b h => ?_⟩
  · exact ⟨by simp [BaseDevice.turn_on, h], by simp [BaseDevice.turn_off, h]⟩
  · simp [BaseDevice.set_brightness, h]
  · simp [BaseDevice.set_color_temp, h]
  · simp [BaseDevice.set_rgb, h]
  · simp [BaseDevice.set_volume, h]
  · exact ⟨by simp [BaseDevice.play, h], by simp [BaseDevice.pause, h],
      by simp [BaseDevice.stop, h]⟩
  · exact ⟨by simp [BaseDevice.seek, h], by simp [BaseDevice.seek_relative, h]⟩
  · simp [TuyaDevice.set_brightness, h]
  · simp [TuyaDevice.set_color_temp, h]
  · simp [TuyaDevice.set_rgb, h]

/-- A sensor-style device with no capabilities, using the `BaseDevice`
defaults. -/
def sensorW : BaseDevice := { device_id := "sensor-1", name := "Sensor", capabilities := [] }

/-- A Tuya plug: ON_OFF only, live device handle. -/
def tuyaSwitchW : TuyaDevice :=
  { device_id := "tuya-1", name := "Plug", device_type_str := "switch",
    hasDevice := true, state := {} }

/-- Witness for C2: a capability-free base device and a Tuya plug both
reject `set_brightness` with the capability error, even for an
out-of-range level, leaving state untouched and the transport idle. -/
theorem C2_capability_gating_witness :
    sensorW.has_capability DeviceCapability.BRIGHTNESS = false ∧
    sensorW.set_brightness 150 = (Except.error DevError.notImplemented, sensorW) ∧
    tuyaSwitchW.has_capability DeviceCapability.BRIGHTNESS = false ∧
    tuyaSwitchW.set_brightness true 150 = (Except.error DevError.notImplemented, tuyaSwitchW, []) :=
  ⟨rfl, C2_capability_gating.2.1 sensorW 150 rfl, rfl,
   C2_capability_gating.2.2.2.2.2.2.2.1 tuyaSwitchW true 150 rfl⟩

/-- A Tapo bulb whose colour support has not been detected
(`_supports_color = False`), with a live device handler. -/
def tapoNoColor : TapoDevice :=
  { device_id := "tapo-1", name := "TapoBulb", supports_color := false, hasDevice := true,
    state := { is_online := true, is_on := some false, brightness := some 0 } }

/-- The conversion the source performs for pure red before dispatching
`set_hue_saturation`. -/
theorem rgb_to_hsv_red : rgb_to_hsv 255 0 0 = (0, 100, 100) := by
  unfold rgb_to_hsv ratMod pyInt
  norm_num [max_def, min_def, Rat.floor_def']

/-- Counterexample to C2 as stated: `tapoNoColor` lacks the RGB_COLOR
capability, yet `set_rgb` raises no capability error — it dispatches
`set_hue_saturation` to the transport, returns True, and mutates the
device state. -/
theorem C2_counterexample :
    tapoNoColor.has_capability DeviceCapability.RGB_COLOR = false ∧
    tapoNoColor.set_rgb true 255 0 0 =
      (Except.ok true,
       { tapoNoColor with state :=
          { tapoNoColor.state with rgb := some (255, 0, 0), is_on := some true } },
       [TapoCall.set_hue_saturation 0 100]) := by
  refine ⟨rfl, ?_⟩
  unfold TapoDevice.set_rgb
  rw [rgb_to_hsv_red]
  rfl

/-- C3 (amended): the `BaseDevice` default `set_brightness`/`set_volume`
and the `TuyaDevice.set_brightness` override reject a level outside
[0,100] with the range error (`ValueError`) before any transport call
(zero transport invocations) and leave the device unchanged.  (The
amendment excludes `WizDevice.set_brightness`,
`TapoDevice.set_brightness` and `ChromecastDevice.set_volume`, which
never validate — see the counterexample.) -/
theorem C3_range_validation :
    (∀ (d : BaseDevice) (level : Int),
      d.has_capability DeviceCapability.BRIGHTNESS = true →
      ¬ (0 ≤ level ∧ level ≤ 100) →
      d.set_brightness level = (Except.error DevError.valueError, d)) ∧
    (∀ (d : BaseDevice) (level : Int),
      d.has_capability DeviceCapability.VOLUME = true →
      ¬ (0 ≤ level ∧ level ≤ 100) →
      d.set_volume level = (Except.error DevError.valueError, d)) ∧
    (∀ (td : TuyaDevice) (transportOk : Bool) (level : Int),
      td.has_capability DeviceCapability.BRIGHTNESS = true →
      ¬ (0 ≤ level ∧ level ≤ 100) →
      td.set_brightness transportOk level = (Except.error DevError.valueError, td, [])) := by
  refine ⟨fun d level hcap hr => ?_, fun d level hcap hr => ?_,
    fun td transportOk level hcap hr => ?_⟩
  · simp [BaseDevice.set_brightness, hcap, hr]
  · simp [BaseDevice.set_volume, hcap, hr]
  · simp [TuyaDevice.set_brightness, hcap, hr]

/-- A base-default device carrying BRIGHTNESS and VOLUME. -/
def lampBase : BaseDevice :=
  { device_id := "base-1", name := "LampBase",
    capabilities := [DeviceCapability.BRIGHTNESS, DeviceCapability.VOLUME] }

/-- A Tuya light with a live device handle. -/
def tuyaLightW : TuyaDevice :=
  { device_id := "tuya-2", name := "Bulb", device_type_str := "light",
    hasDevice := true, state := {} }

/-- Witness for C3 at level 150. -/
theorem C3_range_validation_witness :
    lampBase.has_capability DeviceCapability.BRIGHTNESS = true ∧
    lampBase.has_capability DeviceCapability.VOLUME = true ∧
    tuyaLightW.has_capability DeviceCapability.BRIGHTNESS = true ∧
    ¬ (0 ≤ (150 : Int) ∧ (150 : Int) ≤ 100) ∧
    lampBase.set_brightness 150 = (Except.error DevError.valueError, lampBase) ∧
    lampBase.set_volume 150 = (Except.error DevError.valueError, lampBase) ∧
    tuyaLightW.set_brightness true 150 = (Except.error DevError.valueError, tuyaLightW, []) :=
  ⟨rfl, rfl, rfl, by decide,
   C3_range_validation.1 lampBase 150 rfl (by decide),
   C3_range_validation.2.1 lampBase 150 rfl (by decide),
   C3_range_validation.2.2 tuyaLightW true 150 rfl (by decide)⟩

/-- A WiZ bulb with a live pywizlight handle, in its constructor state. -/
def wizBulb : WizDevice :=
  { device_id := "wiz-1", name := "WizBulb", hasBulb := true, state := WizDevice.initState }

/-- Counterexample to C3 as stated: `WizDevice` has the BRIGHTNESS
capability, yet `set_brightness 150` raises no range error — the
transport is invoked once (with the bulb-range value clamped to 255) and
the call returns True. -/
theorem C3_counterexample :
    WizDevice.capabilities.contains DeviceCapability.BRIGHTNESS = true ∧
    wizBulb.set_brightness true 150 =
      (Except.ok true,
       { wizBulb with state :=
          { wizBulb.state with brightness := some 150, is_on := some true } },
       [WizCall.turn_on_pilot (some 255) none]) := by
  exact ⟨rfl, rfl⟩

/-- C4 (amended): the brightness value stored by a successful
`refresh_state` is clamped to [0,100] (Wiz and Tuya) — any brightness the
refresh path writes is in range, everything else leaves the stored value
as it was.  (The amendment excludes the `set_brightness`/`set_volume`
write paths of Wiz, Tapo and Chromecast, which store the requested level
unclamped — see the counterexample.) -/
theorem C4_refresh_clamps :
    (∀ (d : WizDevice) (pilot : WizPilot) (b : Int),
      (d.refresh_state (Except.ok (some pilot))).state.brightness = some b →
      d.state.brightness = some b ∨ (0 ≤ b ∧ b ≤ 100)) ∧
    (∀ (td : TuyaDevice) (ts : TuyaStatus) (b : Int),
      (td.refresh_state (Except.ok (some ts))).state.brightness = some b →
      td.state.brightness = some b ∨ (0 ≤ b ∧ b ≤ 100)) := by
  constructor
  · intro d pilot b h
    obtain ⟨so, br, ct, rg⟩ := pilot
    unfold WizDevice.refresh_state at h
    by_cases hb : d.hasBulb
    · cases br with
      | some raw =>
        cases ct with
        | some c =>
          by_cases hc : c = 0 <;> cases rg <;> simp [hb, hc] at h <;>
            exact Or.inr (by omega)
        | none => cases rg <;> simp [hb] at h <;> exact Or.inr (by omega)
      | none =>
        cases so <;> cases ct with
        | some c =>
          by_cases hc : c = 0 <;> cases rg <;> simp [hb, hc] at h <;>
            exact Or.inr (by omega)
        | none => cases rg <;> simp [hb] at h <;> exact Or.inr (by omega)
    · simp [hb] at h
      exact Or.inl h
  · intro td ts b h
    unfold TuyaDevice.refresh_state at h
    by_cases hd : td.hasDevice
    · by_cases hl : td.device_type_str = "light"
      · simp [hd, hl] at h
        exact Or.inr (by omega)
      · simp [hd, hl] at h
        exact Or.inl h
    · simp [hd] at h
      exact Or.inl h

/-- A pilot whose raw WiZ brightness 300 exceeds the 10-255 range. -/
def pilotBright : WizPilot :=
  { state_on := true, brightness := some 300, colortemp := none, rgb := none }

/-- Witness for C4: the out-of-range raw value 300 is stored as the
clamped 100. -/
theorem C4_refresh_clamps_witness :
    (wizBulb.refresh_state (Except.ok (some pilotBright))).state.brightness = some 100 ∧
    (wizBulb.state.brightness = some 100 ∨ (0 ≤ (100 : Int) ∧ (100 : Int) ≤ 100)) :=
  ⟨rfl, C4_refresh_clamps.1 wizBulb pilotBright 100 rfl⟩

/-- Counterexample to C4 as stated: `WizDevice.set_brightness` stores the
requested level without clamping, so after `set_brightness 150` the
stored brightness is 150, outside [0,100]. -/
theorem C4_counterexample :
    (wizBulb.set_brightness true 150).2.1.state.brightness = some 150 ∧
    ¬ (0 ≤ (150 : Int) ∧ (150 : Int) ≤ 100) :=
  ⟨rfl, by decide⟩

/-- C5 (amended): `BaseDevice.toggle` and `WizDevice.toggle` branch on
the current `is_on`: `some true` dispatches to `turn_off`, anything else
(false or unknown `None`) to `turn_on`.  (The amendment excludes
`ChromecastDevice.toggle`, which ignores `is_on` and branches on whether
a non-backdrop app is active — see the counterexample.) -/
theorem C5_toggle_branches :
    (∀ d : BaseDevice,
      (d.state.is_on = some true → d.toggle = d.turn_off) ∧
      (d.state.is_on ≠ some true → d.toggle = d.turn_on)) ∧
    (∀ (d : WizDevice) (transportOk : Bool),
      (d.state.is_on = some true → d.toggle transportOk = d.turn_off transportOk) ∧
      (d.state.is_on ≠ some true → d.toggle transportOk = d.turn_on transportOk)) := by
  constructor
  · intro d
    exact ⟨fun h => by simp [BaseDevice.toggle, h],
           fun h => by simp [BaseDevice.toggle, h]⟩
  · intro d transportOk
    exact ⟨fun h => by simp [WizDevice.toggle, h],
           fun h => by simp [WizDevice.toggle, h]⟩

/-- Witness for C5: the freshly constructed WiZ bulb reports
`is_on = some false`, so toggle dispatches to `turn_on`. -/
theorem C5_toggle_branches_witness :
    wizBulb.state.is_on ≠ some true ∧
    wizBulb.toggle true = wizBulb.turn_on true :=
  ⟨by decide, (C5_toggle_branches.2 wizBulb true).2 (by decide)⟩

/-- A connected Chromecast whose status shows it on (not in standby) with
only the backdrop app active. -/
def ccBackdrop : ChromecastDevice :=
  { device_id := "cc-1", name := "LivingRoomTV", hasCast := true,
    cast_status := some { volume_level := 1, is_stand_by := false,
                          app_id := some "E8C28D3C" },
    state := { is_online := true, is_on := some true, volume := some 100,
               playback_state := PlaybackState.IDLE },
    pending_volume := none }

/-- Counterexample to C5 as stated: `ccBackdrop.state.is_on` is true, so
the claim requires an attempted `turn_off`; `ChromecastDevice.toggle`
instead sees only the backdrop app, attempts nothing, and returns True —
its transport log is empty while `turn_off` would have sent `quit_app`. -/
theorem C5_counterexample :
    ccBackdrop.state.is_on = some true ∧
    ccBackdrop.toggle true = (Except.ok true, ccBackdrop, []) ∧
    ccBackdrop.turn_off true = (Except.ok true, ccBackdrop, [CastCall.quit_app]) ∧
    (ccBackdrop.toggle true).2.2 ≠ (ccBackdrop.turn_off true).2.2 :=
  ⟨rfl, rfl, rfl, by decide⟩

/-- C6: on transport failure `refresh_state` flips `is_online` to false
and returns the device otherwise unchanged — every other `DeviceState`
field keeps its previous value (Wiz and Tuya adapters). -/
theorem C6_refresh_failure_keeps_state :
    (∀ d : WizDevice, d.hasBulb = true →
      d.refresh_state (Except.error ()) =
        { d with state := { d.state with is_online := false } }) ∧
    (∀ td : TuyaDevice, td.hasDevice = true →
      td.refresh_state (Except.error ()) =
        { td with state := { td.state with is_online := false } }) := by
  constructor
  · intro d h
    simp [WizDevice.refresh_state, h]
  · intro td h
    simp [TuyaDevice.refresh_state, h]

/-- Witness for C6 on the concrete WiZ bulb and Tuya light. -/
theorem C6_refresh_failure_keeps_state_witness :
    (wizBulb.hasBulb = true ∧
     wizBulb.refresh_state (Except.error ()) =
       { wizBulb with state := { wizBulb.state with is_online := false } }) ∧
    (tuyaLightW.hasDevice = true ∧
     tuyaLightW.refresh_state (Except.error ()) =
       { tuyaLightW with state := { tuyaLightW.state with is_online := false } }) :=
  ⟨⟨rfl, C6_refresh_failure_keeps_state.1 wizBulb rfl⟩,
   ⟨rfl, C6_refresh_failure_keeps_state.2 tuyaLightW rfl⟩⟩
